import Mathlib

/-!
Shallow embedding of tsoding/zzzwe (src/index.js): a 2D arcade shooter with a
dual-backend renderer.  JavaScript numbers are modelled as real numbers (exact
arithmetic); `Math.sqrt` is `Real.sqrt`, `Math.ceil` is `Int.ceil`/`Nat.ceil`.
`Math.random()` is modelled as an explicit stream `rng : Nat -> Real` together
with an index counting how many random values have been consumed so far.
Mutable JS objects become immutable structures threaded through the update
functions; JS arrays become `List`s processed in iteration order.
-/

noncomputable section

/-- src/index.js `lerp(a, b, t)`. -/
def lerp (a b t : ℝ) : ℝ := a + (b - a) * t

/-- src/index.js `class V2` (immutable 2D vector). -/
structure V2 where
  x : ℝ
  y : ℝ

/-- src/index.js `V2.add`. -/
def V2.add (v w : V2) : V2 := ⟨v.x + w.x, v.y + w.y⟩

/-- src/index.js `V2.sub`. -/
def V2.sub (v w : V2) : V2 := ⟨v.x - w.x, v.y - w.y⟩

/-- src/index.js `V2.scale`. -/
def V2.scale (v : V2) (s : ℝ) : V2 := ⟨v.x * s, v.y * s⟩

/-- src/index.js `V2.len`: `Math.sqrt(x*x + y*y)`. -/
def V2.len (v : V2) : ℝ := Real.sqrt (v.x * v.x + v.y * v.y)

/-- src/index.js `V2.normalize`: `n === 0 ? new V2(0, 0) : new V2(x/n, y/n)`. -/
def V2.normalize (v : V2) : V2 :=
  if v.len = 0 then ⟨0, 0⟩ else ⟨v.x / v.len, v.y / v.len⟩

/-- src/index.js `V2.dist`: `this.sub(that).len()`. -/
def V2.dist (v w : V2) : ℝ := (v.sub w).len

/-- src/index.js `V2.polar(mag, dir)`. -/
def V2.polar (mag dir : ℝ) : V2 := ⟨Real.cos dir * mag, Real.sin dir * mag⟩

/-- src/index.js `class Color` (components are floats in [0,1]). -/
structure Color where
  r : ℝ
  g : ℝ
  b : ℝ
  a : ℝ

/-- src/index.js `Color.withAlpha`. -/
def Color.withAlpha (c : Color) (a : ℝ) : Color := ⟨c.r, c.g, c.b, a⟩

/-- src/index.js `Color.grayScale(t)`: lerp every channel toward the mean of
r, g, b; alpha is kept. -/
def Color.grayScale (c : Color) (t : ℝ) : Color :=
  let x := (c.r + c.g + c.b) / 3
  ⟨lerp c.r x t, lerp c.g x t, lerp c.b x t, c.a⟩

end

section HexParsing

/-- Char is a hexadecimal digit (`0-9`, `a-f`, `A-F`), as `parseInt(s, 16)`
accepts. -/
def isHexDigitChar (c : Char) : Bool :=
  ('0' ≤ c && c ≤ '9') || ('a' ≤ c && c ≤ 'f') || ('A' ≤ c && c ≤ 'F')

/-- Numeric value of a hexadecimal digit (0 for non-digits). -/
def hexDigitVal (c : Char) : ℕ :=
  if '0' ≤ c && c ≤ '9' then c.toNat - '0'.toNat
  else if 'a' ≤ c && c ≤ 'f' then c.toNat - 'a'.toNat + 10
  else if 'A' ≤ c && c ≤ 'F' then c.toNat - 'A'.toNat + 10
  else 0

/-- Char class `[0-9a-z]` of the regex in src/index.js `Color.hex`, with the
`i` flag: digits and ASCII letters of either case. -/
def isHexClassChar (c : Char) : Bool :=
  ('0' ≤ c && c ≤ '9') || ('a' ≤ c && c ≤ 'z') || ('A' ≤ c && c ≤ 'Z')

/-- JS `parseInt(s, 16)` on a two-character string: the longest prefix of
hexadecimal digits is parsed; `none` models `NaN` (no valid leading digit). -/
def jsParseIntHex2 (c1 c2 : Char) : Option ℕ :=
  if isHexDigitChar c1 then
    if isHexDigitChar c2 then some (16 * hexDigitVal c1 + hexDigitVal c2)
    else some (hexDigitVal c1)
  else none

/-- The regex search of src/index.js `Color.hex`: the pattern
`#([0-9a-z]{2})([0-9a-z]{2})([0-9a-z]{2})` with flag `i`, matched (as
`String.prototype.match` does) at the leftmost position where it fits — the
pattern is not anchored to the whole string.  Returns the six matched class
characters. -/
def findHexMatch : List Char → Option (Char × Char × Char × Char × Char × Char)
  | [] => none
  | c :: rest =>
    if c = '#' then
      match rest with
      | c1 :: c2 :: c3 :: c4 :: c5 :: c6 :: _ =>
        if isHexClassChar c1 && isHexClassChar c2 && isHexClassChar c3 &&
           isHexClassChar c4 && isHexClassChar c5 && isHexClassChar c6 then
          some (c1, c2, c3, c4, c5, c6)
        else findHexMatch rest
      | _ => findHexMatch rest
    else findHexMatch rest

/-- Result of src/index.js `Color.hex`: components are `Option ℝ` where `none`
models the JS `NaN` produced by `parseInt` on a group with no leading
hexadecimal digit. -/
structure JsColor where
  r : Option ℝ
  g : Option ℝ
  b : Option ℝ
  a : ℝ

/-- src/index.js `Color.hex(hexcolor)`: regex-search the string for
`#` followed by six `[0-9a-zA-Z]` characters; on a match, `parseInt` each
two-character group in base 16 and divide by 255 (alpha 1.0); with no match
the function throws (`none`). -/
noncomputable def colorHex (s : String) : Option JsColor :=
  match findHexMatch s.data with
  | some (r1, r2, g1, g2, b1, b2) =>
    some ⟨(jsParseIntHex2 r1 r2).map (fun (n : ℕ) => (n : ℝ) / 255),
          (jsParseIntHex2 g1 g2).map (fun (n : ℕ) => (n : ℝ) / 255),
          (jsParseIntHex2 b1 b2).map (fun (n : ℕ) => (n : ℝ) / 255),
          1⟩
  | none => none

/-- The spec's notion of a well-formed color string: exactly `#RRGGBB` with six
hexadecimal digits. -/
def wellFormedHexString (s : String) : Bool :=
  match s.data with
  | ['#', c1, c2, c3, c4, c5, c6] =>
    isHexDigitChar c1 && isHexDigitChar c2 && isHexDigitChar c3 &&
    isHexDigitChar c4 && isHexDigitChar c5 && isHexDigitChar c6
  | _ => false

end HexParsing

noncomputable section Camera

/-- Camera/render state shared by src/index.js `RendererWebGL` and
`Renderer2D`: camera position and velocity, grayness, viewport resolution and
derived `unitsPerPixel`. -/
structure Renderer where
  cameraPos : V2
  cameraVel : V2
  grayness : ℝ
  resolution : V2
  unitsPerPixel : ℝ

/-- src/index.js `setTarget(target)` (identical in both backends):
`cameraVel = target.sub(cameraPos)`. -/
def Renderer.setTarget (r : Renderer) (target : V2) : Renderer :=
  { r with cameraVel := target.sub r.cameraPos }

/-- src/index.js renderer `update(dt)` (identical in both backends):
`cameraPos = cameraPos.add(cameraVel.scale(dt))`. -/
def Renderer.update (r : Renderer) (dt : ℝ) : Renderer :=
  { r with cameraPos := r.cameraPos.add (r.cameraVel.scale dt) }

/-- One game frame of camera motion as `Game.update` performs it:
`renderer.setTarget(target)` then `renderer.update(dt)`. -/
def cameraFrame (target : V2) (dt : ℝ) (r : Renderer) : Renderer :=
  (r.setTarget target).update dt

/-- `n` game frames of camera motion toward a fixed target. -/
def cameraFrames (target : V2) (dt : ℝ) : ℕ → Renderer → Renderer
  | 0, r => r
  | n + 1, r => cameraFrames target dt n (cameraFrame target dt r)

end Camera

section Batch

/-- src/index.js `CIRCLE_BATCH_CAPACITY = 1024 * 10`. -/
def CIRCLE_BATCH_CAPACITY : ℕ := 1024 * 10

/-- The instanced-batch state of src/index.js `RendererWebGL`: the running
instance count and the pre-allocated `Float32Array` attribute buffers
(`circleCenterBufferData`, `circleRadiusBufferData`, `circleColorBufferData`),
modelled as lists of floats whose lengths never change. -/
structure GLBatch where
  circlesCount : ℕ
  circleCenterBufferData : List ℝ
  circleRadiusBufferData : List ℝ
  circleColorBufferData : List ℝ

/-- src/index.js `RendererWebGL.fillCircle`: when `circlesCount <
CIRCLE_BATCH_CAPACITY`, write center/radius/color into the attribute buffers at
the count's offsets and increment the count; otherwise do nothing. -/
noncomputable def GLBatch.fillCircle (b : GLBatch) (center : V2) (radius : ℝ)
    (color : Color) : GLBatch :=
  if b.circlesCount < CIRCLE_BATCH_CAPACITY then
    { circlesCount := b.circlesCount + 1
      circleCenterBufferData :=
        ((b.circleCenterBufferData.set (b.circlesCount * 2) center.x).set
          (b.circlesCount * 2 + 1) center.y)
      circleRadiusBufferData := b.circleRadiusBufferData.set b.circlesCount radius
      circleColorBufferData :=
        ((((b.circleColorBufferData.set (b.circlesCount * 4) color.r).set
          (b.circlesCount * 4 + 1) color.g).set
          (b.circlesCount * 4 + 2) color.b).set
          (b.circlesCount * 4 + 3) color.a) }
  else b

/-- The batch-relevant part of src/index.js `RendererWebGL.clear`:
`circlesCount = 0` (the GL color-buffer clear has no model state). -/
def GLBatch.clear (b : GLBatch) : GLBatch := { b with circlesCount := 0 }

/-- A sequence of `fillCircle` calls, in order. -/
noncomputable def GLBatch.fillCircles (b : GLBatch) :
    List (V2 × ℝ × Color) → GLBatch
  | [] => b
  | (c, r, col) :: rest => (b.fillCircle c r col).fillCircles rest

end Batch

noncomputable section Entities

/-- src/index.js gameplay constants (those the claims touch). -/
def PLAYER_SPEED : ℝ := 1000

/-- src/index.js `PLAYER_RADIUS = 69`. -/
def PLAYER_RADIUS : ℝ := 69

/-- src/index.js `PLAYER_MAX_HEALTH = 100`. -/
def PLAYER_MAX_HEALTH : ℝ := 100

/-- src/index.js `PLAYER_SHOOT_COOLDOWN = 0.25 / 2.0`. -/
def PLAYER_SHOOT_COOLDOWN : ℝ := 0.25 / 2.0

/-- src/index.js `BULLET_RADIUS = 42`. -/
def BULLET_RADIUS : ℝ := 42

/-- src/index.js `BULLET_SPEED = 2000`. -/
def BULLET_SPEED : ℝ := 2000

/-- src/index.js `BULLET_LIFETIME = 5.0`. -/
def BULLET_LIFETIME : ℝ := 5.0

/-- src/index.js `ENEMY_SPEED = PLAYER_SPEED / 3`. -/
def ENEMY_SPEED : ℝ := PLAYER_SPEED / 3

/-- src/index.js `ENEMY_RADIUS = PLAYER_RADIUS`. -/
def ENEMY_RADIUS : ℝ := PLAYER_RADIUS

/-- src/index.js `ENEMY_SPAWN_ANIMATION_SPEED = ENEMY_RADIUS * 8`. -/
def ENEMY_SPAWN_ANIMATION_SPEED : ℝ := ENEMY_RADIUS * 8

/-- src/index.js `ENEMY_SPAWN_COOLDOWN = 1.0`. -/
def ENEMY_SPAWN_COOLDOWN : ℝ := 1.0

/-- src/index.js `ENEMY_SPAWN_GROWTH = 1.01`. -/
def ENEMY_SPAWN_GROWTH : ℝ := 1.01

/-- src/index.js `ENEMY_SPAWN_DISTANCE = 1500.0`. -/
def ENEMY_SPAWN_DISTANCE : ℝ := 1500.0

/-- src/index.js `ENEMY_DESPAWN_DISTANCE = ENEMY_SPAWN_DISTANCE * 2`. -/
def ENEMY_DESPAWN_DISTANCE : ℝ := ENEMY_SPAWN_DISTANCE * 2

/-- src/index.js `ENEMY_DAMAGE = PLAYER_MAX_HEALTH / 5`. -/
def ENEMY_DAMAGE : ℝ := PLAYER_MAX_HEALTH / 5

/-- src/index.js `ENEMY_KILL_HEAL = PLAYER_MAX_HEALTH / 10`. -/
def ENEMY_KILL_HEAL : ℝ := PLAYER_MAX_HEALTH / 10

/-- src/index.js `ENEMY_KILL_SCORE = 100`. -/
def ENEMY_KILL_SCORE : ℝ := 100

/-- src/index.js `PLAYER_TRAIL_RATE = 3.0`. -/
def PLAYER_TRAIL_RATE : ℝ := 3.0

/-- src/index.js `ENEMY_TRAIL_RATE = 2.0`. -/
def ENEMY_TRAIL_RATE : ℝ := 2.0

/-- src/index.js `TRAIL_COOLDOWN = 1 / 60`. -/
def TRAIL_COOLDOWN : ℝ := 1 / 60

/-- src/index.js `TUTORIAL_POPUP_SPEED = 1.7`. -/
def TUTORIAL_POPUP_SPEED : ℝ := 1.7

/-- src/index.js `PARTICLE_MAX_LIFETIME = 1.0`. -/
def PARTICLE_MAX_LIFETIME : ℝ := 1.0

/-- src/index.js `PLAYER_COLOR = Color.hex("#f43841")` (eagerly computed). -/
def PLAYER_COLOR : Color := ⟨244 / 255, 56 / 255, 65 / 255, 1⟩

/-- src/index.js `ENEMY_COLOR = Color.hex("#9e95c7")` (eagerly computed). -/
def ENEMY_COLOR : Color := ⟨158 / 255, 149 / 255, 199 / 255, 1⟩

/-- One dot of a src/index.js `Trail`: `{pos, a}`. -/
structure TrailDot where
  pos : V2
  a : ℝ

/-- src/index.js `class Trail`: decaying list of past positions. -/
structure Trail where
  trail : List TrailDot
  cooldown : ℝ
  disabled : Bool
  radius : ℝ
  color : Color
  rate : ℝ

/-- src/index.js `Trail.push(pos)`: append a fresh dot and restart the
cooldown, unless disabled or still cooling down. -/
def Trail.push (t : Trail) (pos : V2) : Trail :=
  if !t.disabled && t.cooldown ≤ 0 then
    { t with trail := t.trail ++ [⟨pos, 1.0⟩], cooldown := TRAIL_COOLDOWN }
  else t

/-- src/index.js `Trail.update(dt)`: fade every dot by `rate * dt`, shift off
leading dots whose alpha dropped to 0, tick the cooldown. -/
def Trail.update (t : Trail) (dt : ℝ) : Trail :=
  { t with
    trail := (t.trail.map (fun d => { d with a := d.a - t.rate * dt })).dropWhile
      (fun d => d.a ≤ 0)
    cooldown := t.cooldown - dt }

/-- src/index.js `class Particle`. -/
structure Particle where
  pos : V2
  vel : V2
  lifetime : ℝ
  radius : ℝ
  color : Color

/-- src/index.js `Particle.update(dt)`. -/
def Particle.update (p : Particle) (dt : ℝ) : Particle :=
  { p with pos := p.pos.add (p.vel.scale dt), lifetime := p.lifetime - dt }

/-- src/index.js `class Bullet`. -/
structure Bullet where
  pos : V2
  vel : V2
  lifetime : ℝ

/-- src/index.js `Bullet.update(dt)`. -/
def Bullet.update (b : Bullet) (dt : ℝ) : Bullet :=
  { b with pos := b.pos.add (b.vel.scale dt), lifetime := b.lifetime - dt }

/-- src/index.js `class Enemy`. -/
structure Enemy where
  pos : V2
  ded : Bool
  radius : ℝ
  trail : Trail

/-- src/index.js `Enemy.update(dt, followPos)`: move toward the follow
position at `ENEMY_SPEED`, pushing and fading the trail, and grow the spawn
radius up to `ENEMY_RADIUS`. -/
def Enemy.update (e : Enemy) (dt : ℝ) (followPos : V2) : Enemy :=
  let vel := ((followPos.sub e.pos).normalize).scale (ENEMY_SPEED * dt)
  let trail1 := e.trail.push e.pos
  let pos1 := e.pos.add vel
  let trail2 := trail1.update dt
  let radius1 :=
    if e.radius < ENEMY_RADIUS then e.radius + ENEMY_SPAWN_ANIMATION_SPEED * dt
    else ENEMY_RADIUS
  { e with pos := pos1, trail := trail2, radius := radius1 }

/-- src/index.js `class Player` (`shootCount` starts at 0 or −1 depending on
stored tutorial state, hence an integer). -/
structure Player where
  pos : V2
  health : ℝ
  shooting : Bool
  lastShoot : ℝ
  trail : Trail
  accuracy : ℝ
  shootCount : ℝ

/-- src/index.js `Player.damage(value)`:
`health = Math.max(health - value, 0.0)`. -/
def Player.damage (p : Player) (value : ℝ) : Player :=
  { p with health := max (p.health - value) 0 }

/-- src/index.js `Player.heal(value)`: only a live player heals, capped at
`PLAYER_MAX_HEALTH`. -/
def Player.heal (p : Player) (value : ℝ) : Player :=
  if p.health > 0 then
    { p with health := min (p.health + value) PLAYER_MAX_HEALTH }
  else p

/-- src/index.js `Player.update(dt, vel)`: push the trail, integrate the
position, fade the trail. -/
def Player.update (p : Player) (dt : ℝ) (vel : V2) : Player :=
  let trail1 := p.trail.push p.pos
  let pos1 := p.pos.add (vel.scale dt)
  let trail2 := trail1.update dt
  { p with pos := pos1, trail := trail2 }

/-- src/index.js `Player.shootAt(target)`: bump `shootCount`, stamp
`lastShoot` with the current clock, and return the spawned bullet (the clock
`performance.now() * 0.001` is the explicit `now` argument). -/
def Player.shootAt (p : Player) (now : ℝ) (target : V2) : Player × Bullet :=
  let p1 := { p with shootCount := p.shootCount + 1, lastShoot := now }
  let bulletDir := (target.sub p.pos).normalize
  let bulletVel := bulletDir.scale BULLET_SPEED
  let bulletPos := p.pos.add (bulletDir.scale (PLAYER_RADIUS + BULLET_RADIUS))
  (p1, ⟨bulletPos, bulletVel, BULLET_LIFETIME⟩)

/-- src/index.js `TutorialPopup` state. -/
structure TutorialPopup where
  alpha : ℝ
  dalpha : ℝ
  text : String

/-- src/index.js `Tutorial` state (`state` indexes `TutorialMessages`); the
popup's `onFadedOut` closure is inlined in `tutorialUpdate`. -/
structure Tutorial where
  state : ℕ
  popup : TutorialPopup

/-- src/index.js `TutorialMessages`. -/
def TutorialMessages : List String :=
  ["WASD to move", "Left Mouse Click to shoot", ""]

/-- src/index.js `TutorialPopup.update(dt)` as instantiated by `Tutorial`:
integrate alpha; on fade-out completion run `onFadedOut` (reset the text from
the current state and fade back in); `onFadedIn` is undefined. -/
def Tutorial.update (t : Tutorial) (dt : ℝ) : Tutorial :=
  let p := t.popup
  let alpha1 := p.alpha + p.dalpha * dt
  if p.dalpha < 0 ∧ alpha1 ≤ 0 then
    { t with popup :=
        { alpha := 0, dalpha := TUTORIAL_POPUP_SPEED,
          text := (TutorialMessages.getD t.state "") } }
  else if p.dalpha > 0 ∧ alpha1 ≥ 1 then
    { t with popup := { p with alpha := 1, dalpha := 0 } }
  else
    { t with popup := { p with alpha := alpha1 } }

/-- src/index.js `Tutorial.playerMoved()` (the localStorage write has no model
state). -/
def Tutorial.playerMoved (t : Tutorial) : Tutorial :=
  if t.state = 0 then
    { state := t.state + 1,
      popup := { t.popup with dalpha := -TUTORIAL_POPUP_SPEED } }
  else t

end Entities

noncomputable section GameModel

/-- src/index.js `randomBetween(min, max)` with the `Math.random()` draw `r`
made explicit: `r * (max - min) + min`. -/
def randomBetween (lo hi r : ℝ) : ℝ := r * (hi - lo) + lo

/-- Generate the particles of one src/index.js `particleBurst` loop: each
iteration draws magnitude, angle, lifetime and radius (four `Math.random()`
draws, in the source's evaluation order) and appends one particle. -/
def particleGen (rng : ℕ → ℝ) (center : V2) (color : Color) :
    ℕ → List Particle → ℕ → List Particle × ℕ
  | 0, ps, idx => (ps, idx)
  | k + 1, ps, idx =>
    let mag := randomBetween 0 BULLET_SPEED (rng idx)
    let dir := randomBetween 0 (2 * Real.pi) (rng (idx + 1))
    let life := randomBetween 0 PARTICLE_MAX_LIFETIME (rng (idx + 2))
    let radius := randomBetween 10 20 (rng (idx + 3))
    particleGen rng center color k
      (ps ++ [⟨center, V2.polar mag dir, life, radius, color⟩]) (idx + 4)

/-- src/index.js `particleBurst(particles, center, color)`: draw a count `N`
in [0, 50); the JS loop `for (let i = 0; i < N; ++i)` runs `⌈N⌉` times. -/
def particleBurst (rng : ℕ → ℝ) (center : V2) (color : Color)
    (particles : List Particle) (idx : ℕ) : List Particle × ℕ :=
  let N := randomBetween 0 50 (rng idx)
  particleGen rng center color ⌈N⌉₊ particles (idx + 1)

/-- src/index.js `directionMap`. -/
def directionMap : String → Option V2
  | "KeyS" => some ⟨0, 1⟩
  | "KeyW" => some ⟨0, -1⟩
  | "KeyA" => some ⟨-1, 0⟩
  | "KeyD" => some ⟨1, 0⟩
  | _ => none

/-- The raw direction sum of `Game.update`'s key loop: add the unit direction
of every held key found in `directionMap`. -/
def movementRaw (keys : List String) : V2 :=
  keys.foldl
    (fun v key => match directionMap key with | some d => v.add d | none => v)
    ⟨0, 0⟩

/-- The movement velocity `Game.update` applies to the player:
`vel.normalize().scale(PLAYER_SPEED)` of the raw direction sum. -/
def movementVel (keys : List String) : V2 :=
  (movementRaw keys).normalize.scale PLAYER_SPEED

/-- src/index.js renderer `screenToWorld(point)` (WebGL form; `Renderer2D`
computes the same value from canvas dimensions). -/
def Renderer.screenToWorld (r : Renderer) (point : V2) : V2 :=
  ((point.sub (r.resolution.scale 0.5)).scale r.unitsPerPixel).add r.cameraPos

/-- The whole mutable state of src/index.js `class Game` (fields of `restart`)
plus the renderer and the `Math.random()` stream index. -/
structure GameState where
  player : Player
  score : ℝ
  mousePos : V2
  pressedKeys : List String
  tutorial : Tutorial
  bullets : List Bullet
  enemies : List Enemy
  particles : List Particle
  enemySpawnRate : ℝ
  enemySpawnCooldown : ℝ
  paused : Bool
  renderer : Renderer
  rngIndex : ℕ

/-- The collision-phase state threaded through `Game.update`'s enemy loop:
player, score, particles and the random-stream index. -/
structure CollideSt where
  player : Player
  score : ℝ
  particles : List Particle
  rngIndex : ℕ

/-- Body of the inner bullet loop of `Game.update`: if the enemy overlaps the
bullet (`dist ≤ BULLET_RADIUS + ENEMY_RADIUS`), add `ENEMY_KILL_SCORE`, heal
the player by `ENEMY_KILL_HEAL`, count accuracy if the bullet is still live,
zero the bullet's lifetime, mark the enemy dead and burst particles. -/
def bulletCheck (rng : ℕ → ℝ) (e : Enemy) (b : Bullet) (st : CollideSt) :
    Enemy × Bullet × CollideSt :=
  if e.pos.dist b.pos ≤ BULLET_RADIUS + ENEMY_RADIUS then
    let score1 := st.score + ENEMY_KILL_SCORE
    let player1 := st.player.heal ENEMY_KILL_HEAL
    let player2 :=
      if b.lifetime > 0 then { player1 with accuracy := player1.accuracy + 1 }
      else player1
    let b1 := { b with lifetime := 0 }
    let e1 := { e with ded := true }
    let pb := particleBurst rng e.pos ENEMY_COLOR st.particles st.rngIndex
    (e1, b1, ⟨player2, score1, pb.1, pb.2⟩)
  else (e, b, st)

/-- The inner `for (let bullet of this.bullets)` loop of `Game.update`, run
for one enemy: every bullet is tested in order (the loop body does not
re-check `enemy.ded`, so one enemy can match several bullets). -/
def bulletsPhase (rng : ℕ → ℝ) (e : Enemy) :
    List Bullet → CollideSt → List Bullet × Enemy × CollideSt
  | [], st => ([], e, st)
  | b :: rest, st =>
    let r1 := bulletCheck rng e b st
    let r2 := bulletsPhase rng r1.1 rest r1.2.2
    (r1.2.1 :: r2.1, r2.2.1, r2.2.2)

/-- An enemy with its trail disabled (one step of
`for (let enemy of this.enemies) enemy.trail.disabled = true;`). -/
def disableTrail (e : Enemy) : Enemy :=
  { e with trail := { e.trail with disabled := true } }

/-- The per-enemy player-collision check of `Game.update`: a live player and a
not-yet-dead enemy within `PLAYER_RADIUS + ENEMY_RADIUS` damage the player by
`ENEMY_DAMAGE`; if that kills the player, the player's and this enemy's trails
are disabled and the returned flag tells the caller to disable every other
enemy's trail too; the enemy dies and particles burst. -/
def playerCheck (rng : ℕ → ℝ) (e : Enemy) (st : CollideSt) :
    Enemy × CollideSt × Bool :=
  if st.player.health > 0 ∧ e.ded = false then
    if e.pos.dist st.player.pos ≤ PLAYER_RADIUS + ENEMY_RADIUS then
      let player1 := st.player.damage ENEMY_DAMAGE
      if player1.health ≤ 0 then
        let player2 := { player1 with trail := { player1.trail with disabled := true } }
        let e1 := { e with ded := true, trail := { e.trail with disabled := true } }
        let pb := particleBurst rng e.pos PLAYER_COLOR st.particles st.rngIndex
        (e1, ⟨player2, st.score, pb.1, pb.2⟩, true)
      else
        let e1 := { e with ded := true }
        let pb := particleBurst rng e.pos PLAYER_COLOR st.particles st.rngIndex
        (e1, ⟨player1, st.score, pb.1, pb.2⟩, false)
    else (e, st, false)
  else (e, st, false)

/-- The `for (let enemy of this.enemies)` loop of `Game.update`, in source
order: for EACH enemy, first its bullet loop (skipped when already dead), then
immediately its player check, before the next enemy is touched.  When a player
check reports the player's death, the trails of all enemies — already
processed (`done`), current, and still pending — are disabled, mirroring the
in-place loop over `this.enemies`. -/
def enemyLoop (rng : ℕ → ℝ) :
    List Enemy → List Enemy → List Bullet → CollideSt →
    List Enemy × List Bullet × CollideSt
  | done, [], bullets, st => (done, bullets, st)
  | done, e :: todo, bullets, st =>
    let r1 :=
      if e.ded = true then (bullets, e, st) else bulletsPhase rng e bullets st
    let r2 := playerCheck rng r1.2.1 r1.2.2
    if r2.2.2 = true then
      enemyLoop rng (done.map disableTrail ++ [r2.1]) (todo.map disableTrail)
        r1.1 r2.2.1
    else
      enemyLoop rng (done ++ [r2.1]) todo r1.1 r2.2.1
termination_by done todo bullets st => todo.length
decreasing_by all_goals simp [List.length_map]

/-- The collision-resolution phase of src/index.js `Game.update` (lines
1218-1245): the enemy loop over the game state. -/
def Game.collide (rng : ℕ → ℝ) (s : GameState) : GameState :=
  let r :=
    enemyLoop rng [] s.enemies s.bullets ⟨s.player, s.score, s.particles, s.rngIndex⟩
  { s with enemies := r.1, bullets := r.2.1, player := r.2.2.player,
           score := r.2.2.score, particles := r.2.2.particles,
           rngIndex := r.2.2.rngIndex }

end GameModel

noncomputable section GameUpdate

/-- Phase 1 of the collision order claim C5 asserts (NOT the source's order):
every enemy runs its bullet loop before any player check happens.  The
per-enemy bullet loop itself is the source's `bulletsPhase`. -/
def bulletsAllPhase (rng : ℕ → ℝ) :
    List Enemy → List Bullet → CollideSt → List Enemy × List Bullet × CollideSt
  | [], bullets, st => ([], bullets, st)
  | e :: todo, bullets, st =>
    let r1 :=
      if e.ded = true then (bullets, e, st) else bulletsPhase rng e bullets st
    let r2 := bulletsAllPhase rng todo r1.1 r1.2.2
    (r1.2.1 :: r2.1, r2.2.1, r2.2.2)

/-- Phase 2 of the collision order claim C5 asserts: after all bullet tests,
every enemy runs its player check (dead enemies skipped). -/
def playerAllPhase (rng : ℕ → ℝ) :
    List Enemy → List Enemy → CollideSt → List Enemy × CollideSt
  | done, [], st => (done, st)
  | done, e :: todo, st =>
    let r := playerCheck rng e st
    if r.2.2 = true then
      playerAllPhase rng (done.map disableTrail ++ [r.1]) (todo.map disableTrail) r.2.1
    else
      playerAllPhase rng (done ++ [r.1]) todo r.2.1
termination_by done todo st => todo.length
decreasing_by all_goals simp [List.length_map]

/-- The collision phase in the order claim C5 describes: all enemies × all
bullets first, then all enemies × player.  Stated from the claim's words, to
be compared with the source's `Game.collide`. -/
def collideSpecOrder (rng : ℕ → ℝ) (s : GameState) : GameState :=
  let st0 : CollideSt := ⟨s.player, s.score, s.particles, s.rngIndex⟩
  let r1 := bulletsAllPhase rng s.enemies s.bullets st0
  let r2 := playerAllPhase rng [] r1.1 r1.2.2
  { s with enemies := r2.1, bullets := r1.2.1, player := r2.2.player,
           score := r2.2.score, particles := r2.2.particles,
           rngIndex := r2.2.rngIndex }

/-- A fresh enemy trail: `new Trail(ENEMY_RADIUS, ENEMY_COLOR,
ENEMY_TRAIL_RATE)`. -/
def newEnemyTrail : Trail := ⟨[], 0, false, ENEMY_RADIUS, ENEMY_COLOR, ENEMY_TRAIL_RATE⟩

/-- The unpaused body of src/index.js `Game.update` after the grayness and
death-slow-motion adjustments: camera follow, movement, shooting, tutorial,
collisions, integration and culling of bullets/particles/enemies, and the
enemy-spawn timer.  `now` is `performance.now() * 0.001`. -/
def stepUnpaused (rng : ℕ → ℝ) (now dt : ℝ) (s : GameState) : GameState :=
  let s := { s with renderer := (s.renderer.setTarget s.player.pos).update dt }
  let vel := movementVel s.pressedKeys
  let moved := s.pressedKeys.any (fun k => (directionMap k).isSome)
  let s := if moved then { s with tutorial := s.tutorial.playerMoved } else s
  let s := { s with player := s.player.update dt vel }
  let s :=
    if s.player.shooting = true ∧ now - s.player.lastShoot > PLAYER_SHOOT_COOLDOWN then
      let pb := s.player.shootAt now (s.renderer.screenToWorld s.mousePos)
      { s with player := pb.1, bullets := s.bullets ++ [pb.2] }
    else s
  let s := { s with tutorial := s.tutorial.update dt }
  let s := Game.collide rng s
  let s := { s with bullets :=
    (s.bullets.map (Bullet.update · dt)).filter (fun b => decide (b.lifetime > 0)) }
  let s := { s with particles :=
    (s.particles.map (Particle.update · dt)).filter (fun p => decide (p.lifetime > 0)) }
  let s := { s with enemies := s.enemies.map (fun e => Enemy.update e dt s.player.pos) }
  let s : GameState := { s with enemies := (s.enemies.filter
    (fun e => !e.ded && decide (e.pos.dist s.player.pos < ENEMY_DESPAWN_DISTANCE))) }
  if s.tutorial.state = 2 then
    let cooldown1 := s.enemySpawnCooldown - dt
    if cooldown1 ≤ 0 then
      let dir := randomBetween 0 (2 * Real.pi) (rng s.rngIndex)
      { s with
        enemies := s.enemies ++
          [⟨s.player.pos.add (V2.polar ENEMY_SPAWN_DISTANCE dir), false, 0, newEnemyTrail⟩],
        rngIndex := s.rngIndex + 1,
        enemySpawnCooldown := s.enemySpawnRate,
        enemySpawnRate := s.enemySpawnRate / ENEMY_SPAWN_GROWTH }
    else { s with enemySpawnCooldown := cooldown1 }
  else s

/-- src/index.js `Game.update(dt)`: when paused, only set the renderer's
grayness to 1.0 and return; otherwise recompute grayness from the health
fraction, divide `dt` by 50 while the player is dead, and run the rest of the
tick. -/
def Game.update (rng : ℕ → ℝ) (now dt : ℝ) (s : GameState) : GameState :=
  if s.paused = true then
    { s with renderer := { s.renderer with grayness := 1 } }
  else
    let s1 := { s with renderer :=
      { s.renderer with grayness := 1 - s.player.health / PLAYER_MAX_HEALTH } }
    let dt1 := if s1.player.health ≤ 0 then dt / 50 else dt
    stepUnpaused rng now dt1 s1

/-- The screen-space messages src/index.js `Game.render` can emit through
`fillMessage` (structured, since JS number-to-string formatting is outside
the model): the pause banner, the game-over banner with score and the
computed accuracy percentage, or the tutorial popup. -/
inductive GameMsg
  | pausedMsg
  | gameOver (score : ℝ) (accuracy : ℝ)
  | tutorialMsg (text : String) (alpha : ℝ)

/-- The `fillMessage` calls of src/index.js `Game.render` (lines 1290-1297),
in order: exactly one of PAUSED, the game-over banner (with
`accuracy = Math.ceil(100 * accuracy / Math.max(shootCount, 1.0))`), or the
tutorial popup. -/
def Game.renderMessages (s : GameState) : List GameMsg :=
  if s.paused = true then [.pausedMsg]
  else if s.player.health ≤ 0 then
    [.gameOver s.score ((⌈100 * s.player.accuracy / max s.player.shootCount 1⌉ : ℤ) : ℝ)]
  else [.tutorialMsg s.tutorial.popup.text s.tutorial.popup.alpha]

end GameUpdate

noncomputable section Fixtures

/-- A fresh player trail: `new Trail(PLAYER_RADIUS, PLAYER_COLOR,
PLAYER_TRAIL_RATE)`. -/
def newPlayerTrail : Trail :=
  ⟨[], 0, false, PLAYER_RADIUS, PLAYER_COLOR, PLAYER_TRAIL_RATE⟩

/-- An all-zero `Math.random()` stream, used to instantiate theorems on
concrete states (each draw returns 0, so particle bursts have size ⌈0⌉ = 0). -/
def rngZero : ℕ → ℝ := fun _ => 0

/-- A concrete renderer state. -/
def renderer0 : Renderer := ⟨⟨0, 0⟩, ⟨0, 0⟩, 0, ⟨1920, 1080⟩, 1⟩

/-- A concrete player at the origin with 20 health. -/
def player20 : Player := ⟨⟨0, 0⟩, 20, false, 0, newPlayerTrail, 0, 0⟩

/-- A concrete tutorial state (mid-tutorial). -/
def tutorial1 : Tutorial := ⟨1, ⟨1, 0, "Left Mouse Click to shoot"⟩⟩

/-- A concrete paused game state. -/
def pausedState : GameState :=
  ⟨player20, 0, ⟨0, 0⟩, [], tutorial1, [], [], [], 1, 1, true, renderer0, 0⟩

/-- A concrete dead player (health 0) with some shots on record. -/
def deadPlayer : Player := ⟨⟨0, 0⟩, 0, false, 0, newPlayerTrail, 3, 5⟩

/-- A concrete game state with the player already dead and the game not
paused. -/
def deadState : GameState :=
  ⟨deadPlayer, 700, ⟨0, 0⟩, [], tutorial1, [], [], [], 1, 1, false, renderer0, 0⟩

/-- An enemy sitting exactly on the player. -/
def crossEnemy : Enemy := ⟨⟨0, 0⟩, false, ENEMY_RADIUS, newEnemyTrail⟩

/-- A 20-health player about to be touched by `crossEnemy`: the collision
phase drops health to 0. -/
def crossState : GameState :=
  ⟨player20, 0, ⟨0, 0⟩, [], tutorial1, [], [crossEnemy], [], 1, 1, false,
   renderer0, 0⟩

/-- An already-dead enemy, for the skipped player check. -/
def dedEnemy : Enemy := ⟨⟨0, 0⟩, true, ENEMY_RADIUS, newEnemyTrail⟩

/-- Enemy touching the player, for the C5 ordering counterexample. -/
def c5Enemy1 : Enemy := ⟨⟨0, 0⟩, false, ENEMY_RADIUS, newEnemyTrail⟩

/-- Enemy away from the player but on a bullet, for the C5 ordering
counterexample. -/
def c5Enemy2 : Enemy := ⟨⟨200, 0⟩, false, ENEMY_RADIUS, newEnemyTrail⟩

/-- A live bullet sitting on `c5Enemy2`. -/
def c5Bullet : Bullet := ⟨⟨200, 0⟩, ⟨0, 0⟩, BULLET_LIFETIME⟩

/-- The C5 ordering counterexample state: in source order `c5Enemy1` damages
the player (20 → 0) before `c5Enemy2`'s bullet kill can heal, so the heal is
blocked; in the claimed all-bullets-first order the heal lands first. -/
def c5State : GameState :=
  ⟨player20, 0, ⟨0, 0⟩, [], tutorial1, [c5Bullet], [c5Enemy1, c5Enemy2], [],
   1, 1, false, renderer0, 0⟩

/-- The camera fixture for the C1 counterexample. -/
def cam0 : Renderer := ⟨⟨0, 0⟩, ⟨0, 0⟩, 0, ⟨0, 0⟩, 1⟩

end Fixtures

section VectorLemmas

theorem V2.len_nonneg (v : V2) : 0 ≤ v.len := Real.sqrt_nonneg _

theorem V2.len_eq_zero_iff (v : V2) : v.len = 0 ↔ v = ⟨0, 0⟩ := by
  unfold V2.len
  constructor
  · intro h
    have hx : v.x * v.x + v.y * v.y ≤ 0 := Real.sqrt_eq_zero'.mp h
    have hx0 : v.x = 0 := by nlinarith [sq_nonneg v.x, sq_nonneg v.y]
    have hy0 : v.y = 0 := by nlinarith [sq_nonneg v.x, sq_nonneg v.y]
    cases v
    simp_all
  · intro h
    subst h
    norm_num

theorem V2.normalize_len (v : V2) (h : v ≠ (⟨0, 0⟩ : V2)) : v.normalize.len = 1 := by
  have hlen0 : v.len ≠ 0 := fun h0 => h ((V2.len_eq_zero_iff v).mp h0)
  have hsq : v.len * v.len = v.x * v.x + v.y * v.y :=
    Real.mul_self_sqrt (by nlinarith [mul_self_nonneg v.x, mul_self_nonneg v.y])
  have hnz : v.normalize = ⟨v.x / v.len, v.y / v.len⟩ := by
    unfold V2.normalize
    exact if_neg hlen0
  have hkey : v.x / v.len * (v.x / v.len) + v.y / v.len * (v.y / v.len) = 1 := by
    field_simp
    linarith [hsq]
  rw [hnz]
  show Real.sqrt (v.x / v.len * (v.x / v.len) + v.y / v.len * (v.y / v.len)) = 1
  rw [hkey, Real.sqrt_one]

theorem V2.len_scale (v : V2) (s : ℝ) : (v.scale s).len = |s| * v.len := by
  simp only [V2.scale, V2.len]
  rw [show v.x * s * (v.x * s) + v.y * s * (v.y * s)
      = s ^ 2 * (v.x * v.x + v.y * v.y) by ring]
  rw [Real.sqrt_mul (sq_nonneg s), Real.sqrt_sq_eq_abs]

theorem V2.normalize_zero : (⟨0, 0⟩ : V2).normalize = ⟨0, 0⟩ := by
  have : (⟨0, 0⟩ : V2).len = 0 := (V2.len_eq_zero_iff _).mpr rfl
  simp [V2.normalize, this]

end VectorLemmas

/-- C4: for every vector v, `v.normalize()` has length exactly 1 (in exact
real arithmetic) unless v is the zero vector, in which case `normalize()`
returns the zero vector; the function is total (never throws, and the
division-by-zero / NaN case is explicitly guarded). -/
theorem normalize_spec (v : V2) :
    (v ≠ (⟨0, 0⟩ : V2) → v.normalize.len = 1) ∧
    (v = (⟨0, 0⟩ : V2) → v.normalize = ⟨0, 0⟩) :=
  ⟨V2.normalize_len v, fun h => h ▸ V2.normalize_zero⟩

theorem normalize_spec_witness :
    ((⟨3, 4⟩ : V2) ≠ (⟨0, 0⟩ : V2) ∧ (⟨3, 4⟩ : V2).normalize.len = 1) ∧
    ((⟨0, 0⟩ : V2) = (⟨0, 0⟩ : V2) ∧ (⟨0, 0⟩ : V2).normalize = ⟨0, 0⟩) := by
  have h34 : (⟨3, 4⟩ : V2) ≠ (⟨0, 0⟩ : V2) := by
    intro h
    have := congrArg V2.x h
    norm_num at this
  exact ⟨⟨h34, (normalize_spec ⟨3, 4⟩).1 h34⟩,
         ⟨rfl, (normalize_spec ⟨0, 0⟩).2 rfl⟩⟩

/-- C7: for every color c, `c.grayScale(0)` equals c, and `c.grayScale(1)` has
equal r, g, b components, each the mean of c's r, g, b, with alpha unchanged
in both cases. -/
theorem grayScale_spec (c : Color) :
    c.grayScale 0 = c ∧
    (c.grayScale 1).r = (c.grayScale 1).g ∧
    (c.grayScale 1).g = (c.grayScale 1).b ∧
    (c.grayScale 1).r = (c.r + c.g + c.b) / 3 ∧
    (c.grayScale 1).a = c.a ∧
    (c.grayScale 0).a = c.a := by
  cases c with
  | mk r g b a =>
    refine ⟨?_, ?_, ?_, ?_, rfl, rfl⟩
    · simp [Color.grayScale, lerp]
    · show r + ((r + g + b) / 3 - r) * 1 = g + ((r + g + b) / 3 - g) * 1
      ring
    · show g + ((r + g + b) / 3 - g) * 1 = b + ((r + g + b) / 3 - b) * 1
      ring
    · show r + ((r + g + b) / 3 - r) * 1 = (r + g + b) / 3
      ring

/-- C10: `damage(v)` and `heal(v)` keep health within
[0, PLAYER_MAX_HEALTH] for every non-negative v (starting from in-range
health), and `heal(v)` on a player whose health is 0 leaves health at 0. -/
theorem player_health_spec (p : Player) (v : ℝ) (hv : 0 ≤ v)
    (h0 : 0 ≤ p.health) (h1 : p.health ≤ PLAYER_MAX_HEALTH) :
    (0 ≤ (p.damage v).health ∧ (p.damage v).health ≤ PLAYER_MAX_HEALTH) ∧
    (0 ≤ (p.heal v).health ∧ (p.heal v).health ≤ PLAYER_MAX_HEALTH) ∧
    (p.health = 0 → (p.heal v).health = 0) := by
  unfold Player.damage Player.heal PLAYER_MAX_HEALTH at *
  refine ⟨⟨le_max_right _ _, max_le (by linarith) (by norm_num)⟩, ?_, ?_⟩
  · split_ifs with h
    · exact ⟨le_min (by linarith) (by norm_num), min_le_right _ _⟩
    · exact ⟨h0, h1⟩
  · intro hz
    rw [if_neg (by rw [hz]; exact lt_irrefl 0)]
    exact hz

theorem player_health_spec_witness :
    (0 ≤ (30 : ℝ) ∧ 0 ≤ player20.health ∧ player20.health ≤ PLAYER_MAX_HEALTH) ∧
    (0 ≤ (player20.damage 30).health ∧
      (player20.damage 30).health ≤ PLAYER_MAX_HEALTH) ∧
    (0 ≤ (player20.heal 30).health ∧
      (player20.heal 30).health ≤ PLAYER_MAX_HEALTH) ∧
    (deadPlayer.health = 0 ∧ (deadPlayer.heal 30).health = 0) := by
  have h20 : 0 ≤ player20.health ∧ player20.health ≤ PLAYER_MAX_HEALTH := by
    constructor <;> norm_num [player20, PLAYER_MAX_HEALTH]
  have hd : deadPlayer.health = 0 := rfl
  have main := player_health_spec player20 30 (by norm_num) h20.1 h20.2
  have dead := player_health_spec deadPlayer 30 (by norm_num)
    (by rw [hd]) (by rw [hd]; norm_num [PLAYER_MAX_HEALTH])
  exact ⟨⟨by norm_num, h20⟩, main.1, main.2.1, hd, dead.2.2 hd⟩

/-- C6: the movement velocity `Game.update` applies to the player is the held
direction sum, normalized, then scaled by `PLAYER_SPEED`; its magnitude is 0
exactly when the direction sum cancels to zero (no keys or cancelling keys)
and `PLAYER_SPEED` otherwise, so diagonal movement is not faster than
axis-aligned movement. -/
theorem movement_velocity_spec (keys : List String) :
    ((movementVel keys).len = 0 ∨ (movementVel keys).len = PLAYER_SPEED) ∧
    ((movementVel keys).len = 0 ↔ movementRaw keys = ⟨0, 0⟩) := by
  by_cases h : movementRaw keys = (⟨0, 0⟩ : V2)
  · have hz : movementVel keys = ⟨0, 0⟩ := by
      unfold movementVel
      rw [h, V2.normalize_zero]
      simp [V2.scale]
    have hlen : (movementVel keys).len = 0 := by
      rw [hz]
      exact (V2.len_eq_zero_iff _).mpr rfl
    exact ⟨Or.inl hlen, by simp [hlen, h]⟩
  · have hone : ((movementRaw keys).normalize).len = 1 := V2.normalize_len _ h
    have hlen : (movementVel keys).len = PLAYER_SPEED := by
      unfold movementVel
      rw [V2.len_scale, hone, mul_one, abs_of_nonneg (by norm_num [PLAYER_SPEED])]
    refine ⟨Or.inr hlen, ?_⟩
    rw [hlen]
    simp only [PLAYER_SPEED]
    constructor
    · intro h1000
      norm_num at h1000
    · intro hraw
      exact absurd hraw h

section BatchLemmas

theorem fillCircle_count (b : GLBatch) (c : V2) (r : ℝ) (col : Color) :
    (b.fillCircle c r col).circlesCount =
      if b.circlesCount < CIRCLE_BATCH_CAPACITY then b.circlesCount + 1
      else b.circlesCount := by
  unfold GLBatch.fillCircle
  split_ifs <;> rfl

theorem fillCircles_count (l : List (V2 × ℝ × Color)) (b : GLBatch)
    (h : b.circlesCount ≤ CIRCLE_BATCH_CAPACITY) :
    (b.fillCircles l).circlesCount =
      min (b.circlesCount + l.length) CIRCLE_BATCH_CAPACITY := by
  induction l generalizing b with
  | nil =>
    simp [GLBatch.fillCircles, Nat.min_eq_left h]
  | cons hd tl ih =>
    obtain ⟨c, r, col⟩ := hd
    show ((b.fillCircle c r col).fillCircles tl).circlesCount = _
    by_cases hlt : b.circlesCount < CIRCLE_BATCH_CAPACITY
    · have hcount : (b.fillCircle c r col).circlesCount = b.circlesCount + 1 := by
        rw [fillCircle_count, if_pos hlt]
      rw [ih _ (by rw [hcount]; omega), hcount]
      simp only [List.length_cons]
      omega
    · have heq : b.circlesCount = CIRCLE_BATCH_CAPACITY := by omega
      have hcount : (b.fillCircle c r col).circlesCount = b.circlesCount := by
        rw [fillCircle_count, if_neg hlt]
      rw [ih _ (by rw [hcount]; omega), hcount, heq]
      simp only [List.length_cons]
      omega

theorem fillCircle_buffer_lengths (b : GLBatch) (c : V2) (r : ℝ) (col : Color) :
    (b.fillCircle c r col).circleCenterBufferData.length
        = b.circleCenterBufferData.length ∧
    (b.fillCircle c r col).circleRadiusBufferData.length
        = b.circleRadiusBufferData.length ∧
    (b.fillCircle c r col).circleColorBufferData.length
        = b.circleColorBufferData.length := by
  unfold GLBatch.fillCircle
  split_ifs <;> simp

end BatchLemmas

/-- C2: after `clear()`, pushing `CIRCLE_BATCH_CAPACITY + k` circles leaves
`circlesCount == CIRCLE_BATCH_CAPACITY`; extra pushes are silently dropped
(`fillCircle` is total: no error path) with no buffer growth, and
`circlesCount ≤ CIRCLE_BATCH_CAPACITY` is preserved by every `fillCircle`. -/
theorem batch_capacity_spec (b : GLBatch) (l : List (V2 × ℝ × Color)) (k : ℕ)
    (hl : l.length = CIRCLE_BATCH_CAPACITY + k) :
    (b.clear.fillCircles l).circlesCount = CIRCLE_BATCH_CAPACITY ∧
    (∀ (b' : GLBatch) (c : V2) (r : ℝ) (col : Color),
      (b'.circlesCount ≤ CIRCLE_BATCH_CAPACITY →
        (b'.fillCircle c r col).circlesCount ≤ CIRCLE_BATCH_CAPACITY) ∧
      (b'.fillCircle c r col).circleCenterBufferData.length
          = b'.circleCenterBufferData.length ∧
      (b'.fillCircle c r col).circleRadiusBufferData.length
          = b'.circleRadiusBufferData.length ∧
      (b'.fillCircle c r col).circleColorBufferData.length
          = b'.circleColorBufferData.length) ∧
    b.clear.circlesCount = 0 := by
  refine ⟨?_, ?_, rfl⟩
  · have h0 : b.clear.circlesCount = 0 := rfl
    rw [fillCircles_count l b.clear (by rw [h0]; omega), h0, hl]
    omega
  · intro b' c r col
    refine ⟨?_, fillCircle_buffer_lengths b' c r col⟩
    intro hle
    rw [fillCircle_count]
    split_ifs with hlt
    · omega
    · exact hle

theorem batch_capacity_spec_witness :
    ((List.replicate (CIRCLE_BATCH_CAPACITY + 1)
        ((⟨0, 0⟩ : V2), (1 : ℝ), PLAYER_COLOR)).length
      = CIRCLE_BATCH_CAPACITY + 1) ∧
    ((GLBatch.clear ⟨0, [], [], []⟩).fillCircles
        (List.replicate (CIRCLE_BATCH_CAPACITY + 1)
          ((⟨0, 0⟩ : V2), (1 : ℝ), PLAYER_COLOR))).circlesCount
      = CIRCLE_BATCH_CAPACITY := by
  have hl : (List.replicate (CIRCLE_BATCH_CAPACITY + 1)
      ((⟨0, 0⟩ : V2), (1 : ℝ), PLAYER_COLOR)).length
      = CIRCLE_BATCH_CAPACITY + 1 := by
    simp
  exact ⟨hl, (batch_capacity_spec ⟨0, [], [], []⟩ _ 1 hl).1⟩

/-- C9: for every `update(dt)` call with `paused == true`, the resulting state
is the input state with only the renderer's grayness set to 1.0 — player,
enemies, bullets, particles, score, tutorial, spawn timers and the camera
position are all unchanged. -/
theorem pause_frame_effect (rng : ℕ → ℝ) (now dt : ℝ) (s : GameState)
    (h : s.paused = true) :
    Game.update rng now dt s
      = { s with renderer := { s.renderer with grayness := 1 } } := by
  unfold Game.update
  rw [if_pos h]

theorem pause_frame_effect_witness :
    pausedState.paused = true ∧
    Game.update rngZero 0 1 pausedState
      = { pausedState with renderer := { pausedState.renderer with grayness := 1 } } :=
  ⟨rfl, pause_frame_effect rngZero 0 1 pausedState rfl⟩

section CameraLemmas

theorem V2.ext2 {a b : V2} (hx : a.x = b.x) (hy : a.y = b.y) : a = b := by
  cases a
  cases b
  simp_all

theorem cameraFrame_sub (target : V2) (dt : ℝ) (r : Renderer) :
    ((cameraFrame target dt r).cameraPos).sub target
      = (r.cameraPos.sub target).scale (1 - dt) := by
  simp only [cameraFrame, Renderer.setTarget, Renderer.update, V2.sub, V2.add,
    V2.scale, V2.mk.injEq]
  constructor <;> ring

theorem cameraFrames_sub (target : V2) (dt : ℝ) (n : ℕ) (r : Renderer) :
    ((cameraFrames target dt n r).cameraPos).sub target
      = (r.cameraPos.sub target).scale ((1 - dt) ^ n) := by
  induction n generalizing r with
  | zero =>
    refine V2.ext2 ?_ ?_ <;> simp [cameraFrames, V2.scale]
  | succ n ih =>
    show ((cameraFrames target dt n (cameraFrame target dt r)).cameraPos).sub target = _
    rw [ih, cameraFrame_sub]
    refine V2.ext2 ?_ ?_ <;> simp only [V2.scale] <;> ring

theorem cameraFrames_dist (target : V2) (dt : ℝ) (n : ℕ) (r : Renderer) :
    (cameraFrames target dt n r).cameraPos.dist target
      = |(1 - dt) ^ n| * r.cameraPos.dist target := by
  unfold V2.dist
  rw [cameraFrames_sub]
  rw [show ((r.cameraPos.sub target).scale ((1 - dt) ^ n)).len
      = |(1 - dt) ^ n| * (r.cameraPos.sub target).len from V2.len_scale _ _]

end CameraLemmas

/-- C1 (amended): when `setTarget(T)` is re-invoked before every `update(dt)`
call — the order `Game.update` actually uses each frame — and 0 ≤ dt ≤ 1, the
camera position monotonically approaches T (the distance to T never
increases from one frame to the next) and never overshoots it (each
coordinate of the position stays on its starting side of T). -/
theorem camera_convergence_spec (target : V2) (dt : ℝ) (h0 : 0 ≤ dt)
    (h1 : dt ≤ 1) (r : Renderer) (n : ℕ) :
    (cameraFrames target dt (n + 1) r).cameraPos.dist target
      ≤ (cameraFrames target dt n r).cameraPos.dist target ∧
    0 ≤ (target.x - (cameraFrames target dt n r).cameraPos.x)
        * (target.x - r.cameraPos.x) ∧
    0 ≤ (target.y - (cameraFrames target dt n r).cameraPos.y)
        * (target.y - r.cameraPos.y) := by
  have hq : 0 ≤ 1 - dt := by linarith
  have hq1 : 1 - dt ≤ 1 := by linarith
  have hpow : 0 ≤ (1 - dt) ^ n := pow_nonneg hq n
  have hsub := cameraFrames_sub target dt n r
  have hx : (cameraFrames target dt n r).cameraPos.x - target.x
      = (r.cameraPos.x - target.x) * (1 - dt) ^ n := congrArg V2.x hsub
  have hy : (cameraFrames target dt n r).cameraPos.y - target.y
      = (r.cameraPos.y - target.y) * (1 - dt) ^ n := congrArg V2.y hsub
  refine ⟨?_, ?_, ?_⟩
  · rw [cameraFrames_dist, cameraFrames_dist]
    have hdist0 : 0 ≤ r.cameraPos.dist target := V2.len_nonneg _
    have habs : |(1 - dt) ^ (n + 1)| ≤ |(1 - dt) ^ n| := by
      rw [abs_of_nonneg hpow, abs_of_nonneg (pow_nonneg hq (n + 1)), pow_succ]
      nlinarith
    exact mul_le_mul_of_nonneg_right habs hdist0
  · have hx' : target.x - (cameraFrames target dt n r).cameraPos.x
        = (target.x - r.cameraPos.x) * (1 - dt) ^ n := by linarith [hx]
    rw [hx']
    nlinarith [mul_nonneg hpow (sq_nonneg (target.x - r.cameraPos.x))]
  · have hy' : target.y - (cameraFrames target dt n r).cameraPos.y
        = (target.y - r.cameraPos.y) * (1 - dt) ^ n := by linarith [hy]
    rw [hy']
    nlinarith [mul_nonneg hpow (sq_nonneg (target.y - r.cameraPos.y))]

theorem camera_convergence_spec_witness :
    (0 ≤ (1 / 2 : ℝ) ∧ (1 / 2 : ℝ) ≤ 1) ∧
    ((cameraFrames ⟨1, 0⟩ (1 / 2) 2 cam0).cameraPos.dist ⟨1, 0⟩
      ≤ (cameraFrames ⟨1, 0⟩ (1 / 2) 1 cam0).cameraPos.dist ⟨1, 0⟩ ∧
    0 ≤ ((⟨1, 0⟩ : V2).x - (cameraFrames ⟨1, 0⟩ (1 / 2) 1 cam0).cameraPos.x)
        * ((⟨1, 0⟩ : V2).x - cam0.cameraPos.x) ∧
    0 ≤ ((⟨1, 0⟩ : V2).y - (cameraFrames ⟨1, 0⟩ (1 / 2) 1 cam0).cameraPos.y)
        * ((⟨1, 0⟩ : V2).y - cam0.cameraPos.y)) :=
  ⟨⟨by norm_num, by norm_num⟩,
   camera_convergence_spec ⟨1, 0⟩ (1 / 2) (by norm_num) (by norm_num) cam0 1⟩

/-- C1 counterexample: with `setTarget(T)` invoked only ONCE and `update(dt)`
then called repeatedly (the claim's literal protocol), the velocity never
decays: starting at 0 with target x = 1 and dt = 1 (inside the claim's stable
range), the first update lands exactly on the target and the second overshoots
to x = 2, with the distance to the target growing from 0 to 1 — so the
position neither monotonically approaches T nor avoids overshooting. -/
theorem camera_overshoot_counterexample :
    ((cam0.setTarget ⟨1, 0⟩).update 1).cameraPos.x = 1 ∧
    (((cam0.setTarget ⟨1, 0⟩).update 1).update 1).cameraPos.x = 2 ∧
    ((cam0.setTarget ⟨1, 0⟩).update 1).cameraPos.dist ⟨1, 0⟩ = 0 ∧
    (((cam0.setTarget ⟨1, 0⟩).update 1).update 1).cameraPos.dist ⟨1, 0⟩ = 1 := by
  have h1 : ((cam0.setTarget ⟨1, 0⟩).update 1).cameraPos = ⟨1, 0⟩ := by
    simp only [cam0, Renderer.setTarget, Renderer.update, V2.sub, V2.add,
      V2.scale, V2.mk.injEq]
    norm_num
  have h2 : (((cam0.setTarget ⟨1, 0⟩).update 1).update 1).cameraPos = ⟨2, 0⟩ := by
    simp only [cam0, Renderer.setTarget, Renderer.update, V2.sub, V2.add,
      V2.scale, V2.mk.injEq]
    norm_num
  refine ⟨by rw [h1], by rw [h2], ?_, ?_⟩
  · rw [h1]
    unfold V2.dist V2.sub V2.len
    norm_num
  · rw [h2]
    unfold V2.dist V2.sub V2.len
    norm_num

section HexLemmas

theorem hexDigit_isClass {c : Char} (h : isHexDigitChar c = true) :
    isHexClassChar c = true := by
  simp only [isHexDigitChar, Bool.or_eq_true, Bool.and_eq_true,
    decide_eq_true_eq] at h
  simp only [isHexClassChar, Bool.or_eq_true, Bool.and_eq_true,
    decide_eq_true_eq]
  rcases h with (h | h) | h
  · exact Or.inl (Or.inl h)
  · exact Or.inl (Or.inr ⟨h.1, le_trans h.2 (by decide : ('f' : Char) ≤ 'z')⟩)
  · exact Or.inr ⟨h.1, le_trans h.2 (by decide : ('F' : Char) ≤ 'Z')⟩

theorem colorHex_eq_none_iff (s : String) :
    colorHex s = none ↔ findHexMatch s.data = none := by
  unfold colorHex
  cases h : findHexMatch s.data with
  | none => simp
  | some m =>
    obtain ⟨c1, c2, c3, c4, c5, c6⟩ := m
    simp

end HexLemmas

/-- C3 (amended): `Color.hex(s)` returns components `RRGGBB/255` (alpha 1.0)
when s is `#RRGGBB` with six hexadecimal digits; but it fails exactly when the
regex search finds no occurrence of `#` followed by six characters of the
class `[0-9a-zA-Z]` anywhere in s — NOT exactly when s is malformed: a string
of the wrong length can parse (unanchored search), and alphanumeric non-hex
digits are accepted by the regex and produce NaN components via `parseInt`
instead of a ParseError. -/
theorem hex_parse_spec :
    (∀ c1 c2 c3 c4 c5 c6 : Char,
      isHexDigitChar c1 = true → isHexDigitChar c2 = true →
      isHexDigitChar c3 = true → isHexDigitChar c4 = true →
      isHexDigitChar c5 = true → isHexDigitChar c6 = true →
      colorHex (String.mk ['#', c1, c2, c3, c4, c5, c6])
        = some ⟨some (((16 * hexDigitVal c1 + hexDigitVal c2 : ℕ) : ℝ) / 255),
                some (((16 * hexDigitVal c3 + hexDigitVal c4 : ℕ) : ℝ) / 255),
                some (((16 * hexDigitVal c5 + hexDigitVal c6 : ℕ) : ℝ) / 255),
                1⟩) ∧
    (∀ s : String, colorHex s = none ↔ findHexMatch s.data = none) := by
  refine ⟨?_, colorHex_eq_none_iff⟩
  intro c1 c2 c3 c4 c5 c6 h1 h2 h3 h4 h5 h6
  have hstep : findHexMatch ['#', c1, c2, c3, c4, c5, c6]
      = if (isHexClassChar c1 && isHexClassChar c2 && isHexClassChar c3 &&
            isHexClassChar c4 && isHexClassChar c5 && isHexClassChar c6) = true
        then some (c1, c2, c3, c4, c5, c6)
        else findHexMatch [c1, c2, c3, c4, c5, c6] := rfl
  have hmatch : findHexMatch (String.mk ['#', c1, c2, c3, c4, c5, c6]).data
      = some (c1, c2, c3, c4, c5, c6) := by
    show findHexMatch ['#', c1, c2, c3, c4, c5, c6] = _
    rw [hstep, hexDigit_isClass h1, hexDigit_isClass h2, hexDigit_isClass h3,
      hexDigit_isClass h4, hexDigit_isClass h5, hexDigit_isClass h6]
    simp
  unfold colorHex
  rw [hmatch]
  simp only [jsParseIntHex2, if_pos h1, if_pos h2, if_pos h3, if_pos h4,
    if_pos h5, if_pos h6]
  rfl

theorem hex_parse_spec_witness :
    (isHexDigitChar 'f' = true ∧ isHexDigitChar '4' = true ∧
     isHexDigitChar '3' = true ∧ isHexDigitChar '8' = true ∧
     isHexDigitChar '1' = true) ∧
    colorHex (String.mk ['#', 'f', '4', '3', '8', '4', '1'])
      = some ⟨some (((16 * hexDigitVal 'f' + hexDigitVal '4' : ℕ) : ℝ) / 255),
              some (((16 * hexDigitVal '3' + hexDigitVal '8' : ℕ) : ℝ) / 255),
              some (((16 * hexDigitVal '4' + hexDigitVal '1' : ℕ) : ℝ) / 255),
              1⟩ :=
  ⟨⟨by decide, by decide, by decide, by decide, by decide⟩,
   hex_parse_spec.1 'f' '4' '3' '8' '4' '1' (by decide) (by decide) (by decide)
     (by decide) (by decide) (by decide)⟩

/-- C3 counterexample: the claim says `Color.hex` fails with ParseError
exactly when the string is malformed (wrong length or non-hex digits), but
"#zzzzzz" — malformed, since 'z' is not a hexadecimal digit — is accepted
without any error: the regex class `[0-9a-z]` admits every lowercase letter,
so the match succeeds and `parseInt('zz', 16)` silently yields NaN
components. -/
theorem hex_malformed_accepted_counterexample :
    wellFormedHexString (String.mk ['#', 'z', 'z', 'z', 'z', 'z', 'z']) = false ∧
    (colorHex (String.mk ['#', 'z', 'z', 'z', 'z', 'z', 'z'])).isSome = true ∧
    colorHex (String.mk ['#', 'z', 'z', 'z', 'z', 'z', 'z'])
      = some ⟨none, none, none, 1⟩ := by
  have hmatch : findHexMatch (String.mk ['#', 'z', 'z', 'z', 'z', 'z', 'z']).data
      = some ('z', 'z', 'z', 'z', 'z', 'z') := by decide
  have hval : colorHex (String.mk ['#', 'z', 'z', 'z', 'z', 'z', 'z'])
      = some ⟨none, none, none, 1⟩ := by
    unfold colorHex
    rw [hmatch]
    rfl
  exact ⟨by decide, by rw [hval]; rfl, hval⟩

section CollideLemmas

theorem bulletCheck_enemy_pos (rng : ℕ → ℝ) (e : Enemy) (b : Bullet)
    (st : CollideSt) : (bulletCheck rng e b st).1.pos = e.pos := by
  unfold bulletCheck
  split_ifs <;> rfl

theorem bulletCheck_score (rng : ℕ → ℝ) (e : Enemy) (b : Bullet)
    (st : CollideSt) :
    ((bulletCheck rng e b st).2.2).score = st.score +
      if e.pos.dist b.pos ≤ BULLET_RADIUS + ENEMY_RADIUS then ENEMY_KILL_SCORE
      else 0 := by
  unfold bulletCheck
  split_ifs <;> simp

theorem bulletsPhase_score (rng : ℕ → ℝ) (bs : List Bullet) :
    ∀ (e : Enemy) (st : CollideSt),
    ((bulletsPhase rng e bs st).2.2).score = st.score + ENEMY_KILL_SCORE *
      ((bs.countP
        (fun b => decide (e.pos.dist b.pos ≤ BULLET_RADIUS + ENEMY_RADIUS))) : ℝ) := by
  induction bs with
  | nil =>
    intro e st
    simp [bulletsPhase]
  | cons b rest ih =>
    intro e st
    show ((bulletsPhase rng (bulletCheck rng e b st).1 rest
        (bulletCheck rng e b st).2.2).2.2).score = _
    rw [ih, bulletCheck_enemy_pos, bulletCheck_score, List.countP_cons]
    by_cases h : e.pos.dist b.pos ≤ BULLET_RADIUS + ENEMY_RADIUS
    · rw [if_pos h]
      have hd : (decide (e.pos.dist b.pos ≤ BULLET_RADIUS + ENEMY_RADIUS)) = true := by
        simp [h]
      rw [hd, if_pos rfl]
      push_cast
      ring
    · rw [if_neg h]
      have hd : (decide (e.pos.dist b.pos ≤ BULLET_RADIUS + ENEMY_RADIUS)) = false := by
        simp [h]
      rw [hd, if_neg (by simp : ¬(false = true))]
      push_cast
      ring

theorem playerCheck_ded (rng : ℕ → ℝ) (e : Enemy) (st : CollideSt)
    (h : e.ded = true) : playerCheck rng e st = (e, st, false) := by
  unfold playerCheck
  rw [if_neg]
  intro hc
  rw [h] at hc
  exact absurd hc.2 (by simp)

theorem enemyLoop_length_aux (rng : ℕ → ℝ) :
    ∀ (n : ℕ) (todo : List Enemy), todo.length ≤ n →
    ∀ (done : List Enemy) (bullets : List Bullet) (st : CollideSt),
    (enemyLoop rng done todo bullets st).1.length = done.length + todo.length := by
  intro n
  induction n with
  | zero =>
    intro todo hlen done bullets st
    have htodo : todo = [] := List.length_eq_zero.mp (Nat.le_zero.mp hlen)
    subst htodo
    simp [enemyLoop]
  | succ n ih =>
    intro todo hlen done bullets st
    cases todo with
    | nil => simp [enemyLoop]
    | cons e todo' =>
      have hlen' : todo'.length ≤ n := by
        simp only [List.length_cons] at hlen
        omega
      have hlenm : (todo'.map disableTrail).length ≤ n := by
        rw [List.length_map]
        exact hlen'
      unfold enemyLoop
      dsimp only
      split_ifs with h1 h2 h3 <;>
        (first
          | rw [ih (todo'.map disableTrail) hlenm]
          | rw [ih todo' hlen']) <;>
        simp [List.length_append, List.length_map, List.length_cons] <;>
        omega

theorem enemyLoop_length (rng : ℕ → ℝ) (todo done : List Enemy)
    (bullets : List Bullet) (st : CollideSt) :
    (enemyLoop rng done todo bullets st).1.length = done.length + todo.length :=
  enemyLoop_length_aux rng todo.length todo le_rfl done bullets st

end CollideLemmas

section EvalLemmas

theorem particleBurst_rngZero (center : V2) (color : Color) (ps : List Particle)
    (idx : ℕ) : particleBurst rngZero center color ps idx = (ps, idx + 1) := by
  unfold particleBurst randomBetween rngZero
  dsimp only
  have h : ⌈(0 : ℝ) * (50 - 0) + 0⌉₊ = 0 := by norm_num
  rw [h]
  rfl

theorem dist_horizontal (a b y : ℝ) :
    V2.dist ⟨a, y⟩ ⟨b, y⟩ = |a - b| := by
  unfold V2.dist V2.sub V2.len
  rw [show (a - b) * (a - b) + (y - y) * (y - y) = (a - b) ^ 2 by ring]
  exact Real.sqrt_sq_eq_abs _

theorem distEval_zero (a y : ℝ) : V2.dist ⟨a, y⟩ ⟨a, y⟩ = 0 := by
  rw [dist_horizontal]
  simp

theorem distEval_0_200 : V2.dist (⟨0, 0⟩ : V2) ⟨200, 0⟩ = 200 := by
  rw [dist_horizontal]
  norm_num

theorem distEval_200_0 : V2.dist (⟨200, 0⟩ : V2) ⟨0, 0⟩ = 200 := by
  rw [dist_horizontal]
  norm_num

end EvalLemmas

/-- C5 counterexample: the claim's "all enemies × all bullets before any
enemy × player" phase order is NOT what the code does — the code runs both
checks per enemy before moving to the next enemy, which is observable: with
20 health, an enemy touching the player (no bullet near it) and a second
enemy on a live bullet, the source order damages the player to 0 first, so
the kill-heal from the second enemy's bullet is blocked (final health 0);
the claimed order heals to 30 first and the damage then leaves 10. -/
theorem collide_order_counterexample :
    (Game.collide rngZero c5State).player.health = 0 ∧
    (collideSpecOrder rngZero c5State).player.health = 10 ∧
    Game.collide rngZero c5State ≠ collideSpecOrder rngZero c5State := by
  have h1 : (Game.collide rngZero c5State).player.health = 0 := by
    norm_num [Game.collide, enemyLoop, bulletsPhase, bulletCheck, playerCheck,
      particleBurst_rngZero, Player.heal, Player.damage, disableTrail, c5State,
      player20, newPlayerTrail, c5Enemy1, c5Enemy2, c5Bullet, newEnemyTrail,
      distEval_zero, distEval_0_200, distEval_200_0, BULLET_RADIUS,
      ENEMY_RADIUS, PLAYER_RADIUS, ENEMY_DAMAGE, ENEMY_KILL_HEAL,
      ENEMY_KILL_SCORE, PLAYER_MAX_HEALTH, BULLET_LIFETIME]
  have h2 : (collideSpecOrder rngZero c5State).player.health = 10 := by
    norm_num [collideSpecOrder, bulletsAllPhase, playerAllPhase, bulletsPhase,
      bulletCheck, playerCheck, particleBurst_rngZero, Player.heal,
      Player.damage, disableTrail, c5State, player20, newPlayerTrail, c5Enemy1,
      c5Enemy2, c5Bullet, newEnemyTrail, distEval_zero, distEval_0_200,
      distEval_200_0, BULLET_RADIUS, ENEMY_RADIUS, PLAYER_RADIUS, ENEMY_DAMAGE,
      ENEMY_KILL_HEAL, ENEMY_KILL_SCORE, PLAYER_MAX_HEALTH, BULLET_LIFETIME]
  refine ⟨h1, h2, ?_⟩
  intro heq
  rw [heq, h2] at h1
  norm_num at h1

/-- C5 (amended): within one update tick, enemies are processed in list
order, and EACH enemy is tested against all bullets and then immediately
against the player before the next enemy is touched (not in two global
phases).  An enemy already marked dead this tick is skipped for the player
check; a single enemy may still be matched against multiple bullets before
removal — the bullet loop adds ENEMY_KILL_SCORE (and attempts a heal) once
per bullet within range, not once per enemy — and removal is deferred to
end-of-tick filtering: the collision phase never changes the number of
enemies. -/
theorem collision_per_enemy_spec :
    (∀ (rng : ℕ → ℝ) (e : Enemy) (bs : List Bullet) (st : CollideSt),
      ((bulletsPhase rng e bs st).2.2).score = st.score + ENEMY_KILL_SCORE *
        ((bs.countP (fun b =>
          decide (e.pos.dist b.pos ≤ BULLET_RADIUS + ENEMY_RADIUS))) : ℝ)) ∧
    (∀ (rng : ℕ → ℝ) (e : Enemy) (st : CollideSt),
      e.ded = true → playerCheck rng e st = (e, st, false)) ∧
    (∀ (rng : ℕ → ℝ) (s : GameState),
      (Game.collide rng s).enemies.length = s.enemies.length) := by
  refine ⟨fun rng e bs st => bulletsPhase_score rng bs e st, playerCheck_ded, ?_⟩
  intro rng s
  unfold Game.collide
  dsimp only
  rw [enemyLoop_length]
  simp

theorem collision_per_enemy_spec_witness :
    ((bulletsPhase rngZero c5Enemy2 [c5Bullet] ⟨player20, 0, [], 0⟩).2.2).score
      = (0 : ℝ) + ENEMY_KILL_SCORE *
        (([c5Bullet].countP (fun b =>
          decide (c5Enemy2.pos.dist b.pos ≤ BULLET_RADIUS + ENEMY_RADIUS))) : ℝ) ∧
    (dedEnemy.ded = true ∧
      playerCheck rngZero dedEnemy ⟨player20, 0, [], 0⟩
        = (dedEnemy, ⟨player20, 0, [], 0⟩, false)) ∧
    (Game.collide rngZero c5State).enemies.length = c5State.enemies.length :=
  ⟨collision_per_enemy_spec.1 rngZero c5Enemy2 [c5Bullet] ⟨player20, 0, [], 0⟩,
   ⟨rfl, collision_per_enemy_spec.2.1 rngZero dedEnemy ⟨player20, 0, [], 0⟩ rfl⟩,
   collision_per_enemy_spec.2.2 rngZero c5State⟩

section DeathLemmas

theorem heal_nonpos (p : Player) (v : ℝ) (h : p.health ≤ 0) : p.heal v = p := by
  unfold Player.heal
  rw [if_neg (by linarith)]

theorem heal_pos (p : Player) (h : p.health > 0) : (p.heal ENEMY_KILL_HEAL).health > 0 := by
  unfold Player.heal ENEMY_KILL_HEAL PLAYER_MAX_HEALTH
  rw [if_pos h]
  show 0 < min (p.health + 100 / 10) (100 : ℝ)
  rw [lt_min_iff]
  constructor <;> [linarith; norm_num]

theorem bulletCheck_player_trail (rng : ℕ → ℝ) (e : Enemy) (b : Bullet)
    (st : CollideSt) :
    ((bulletCheck rng e b st).2.2).player.trail = st.player.trail := by
  unfold bulletCheck Player.heal
  split_ifs <;> rfl

theorem bulletCheck_enemy_trail (rng : ℕ → ℝ) (e : Enemy) (b : Bullet)
    (st : CollideSt) : (bulletCheck rng e b st).1.trail = e.trail := by
  unfold bulletCheck
  split_ifs <;> rfl

theorem bulletCheck_health_nonpos (rng : ℕ → ℝ) (e : Enemy) (b : Bullet)
    (st : CollideSt) (h : st.player.health ≤ 0) :
    ((bulletCheck rng e b st).2.2).player.health = st.player.health := by
  unfold bulletCheck
  rw [heal_nonpos st.player ENEMY_KILL_HEAL h]
  split_ifs <;> rfl

theorem bulletCheck_health_pos (rng : ℕ → ℝ) (e : Enemy) (b : Bullet)
    (st : CollideSt) (h : st.player.health > 0) :
    ((bulletCheck rng e b st).2.2).player.health > 0 := by
  unfold bulletCheck
  split_ifs <;> first | exact heal_pos st.player h | exact h

theorem bulletsPhase_player_trail (rng : ℕ → ℝ) (bs : List Bullet) :
    ∀ (e : Enemy) (st : CollideSt),
    ((bulletsPhase rng e bs st).2.2).player.trail = st.player.trail := by
  induction bs with
  | nil => intro e st; rfl
  | cons b rest ih =>
    intro e st
    show ((bulletsPhase rng (bulletCheck rng e b st).1 rest
        (bulletCheck rng e b st).2.2).2.2).player.trail = _
    rw [ih, bulletCheck_player_trail]

theorem bulletsPhase_enemy_trail (rng : ℕ → ℝ) (bs : List Bullet) :
    ∀ (e : Enemy) (st : CollideSt),
    ((bulletsPhase rng e bs st).2.1).trail = e.trail := by
  induction bs with
  | nil => intro e st; rfl
  | cons b rest ih =>
    intro e st
    show ((bulletsPhase rng (bulletCheck rng e b st).1 rest
        (bulletCheck rng e b st).2.2).2.1).trail = _
    rw [ih, bulletCheck_enemy_trail]

theorem bulletsPhase_health_nonpos (rng : ℕ → ℝ) (bs : List Bullet) :
    ∀ (e : Enemy) (st : CollideSt), st.player.health ≤ 0 →
    ((bulletsPhase rng e bs st).2.2).player.health = st.player.health := by
  induction bs with
  | nil => intro e st _; rfl
  | cons b rest ih =>
    intro e st h
    show ((bulletsPhase rng (bulletCheck rng e b st).1 rest
        (bulletCheck rng e b st).2.2).2.2).player.health = _
    rw [ih _ _ (by rw [bulletCheck_health_nonpos rng e b st h]; exact h),
      bulletCheck_health_nonpos rng e b st h]

theorem bulletsPhase_health_pos (rng : ℕ → ℝ) (bs : List Bullet) :
    ∀ (e : Enemy) (st : CollideSt), st.player.health > 0 →
    ((bulletsPhase rng e bs st).2.2).player.health > 0 := by
  induction bs with
  | nil => intro e st h; exact h
  | cons b rest ih =>
    intro e st h
    show ((bulletsPhase rng (bulletCheck rng e b st).1 rest
        (bulletCheck rng e b st).2.2).2.2).player.health > 0
    exact ih _ _ (bulletCheck_health_pos rng e b st h)

theorem playerCheck_nonpos (rng : ℕ → ℝ) (e : Enemy) (st : CollideSt)
    (h : st.player.health ≤ 0) : playerCheck rng e st = (e, st, false) := by
  unfold playerCheck
  rw [if_neg]
  intro hc
  linarith [hc.1]

end DeathLemmas

section EnemyLoopDeath

theorem ite_flag_false {α : Sort _} (x : Enemy) (y : CollideSt) (a b : α) :
    (if ((x, y, false) : Enemy × CollideSt × Bool).2.2 = true then a else b) = b := by
  simp

theorem enemyLoop_health_nonpos_aux (rng : ℕ → ℝ) :
    ∀ (n : ℕ) (todo : List Enemy), todo.length ≤ n →
    ∀ (done : List Enemy) (bullets : List Bullet) (st : CollideSt),
    st.player.health ≤ 0 →
    ((enemyLoop rng done todo bullets st).2.2).player.health = st.player.health := by
  intro n
  induction n with
  | zero =>
    intro todo hlen done bullets st h
    have htodo : todo = [] := List.length_eq_zero.mp (Nat.le_zero.mp hlen)
    subst htodo
    simp [enemyLoop]
  | succ n ih =>
    intro todo hlen done bullets st h
    cases todo with
    | nil => simp [enemyLoop]
    | cons e todo' =>
      have hlen' : todo'.length ≤ n := by
        simp only [List.length_cons] at hlen
        omega
      unfold enemyLoop
      dsimp only
      by_cases hd : e.ded = true
      · rw [if_pos hd]
        rw [playerCheck_nonpos rng e st h, ite_flag_false]
        exact ih todo' hlen' (done ++ [e]) bullets st h
      · rw [if_neg hd]
        have hh1 : ((bulletsPhase rng e bullets st).2.2).player.health
            = st.player.health := bulletsPhase_health_nonpos rng bullets e st h
        rw [playerCheck_nonpos rng (bulletsPhase rng e bullets st).2.1
          (bulletsPhase rng e bullets st).2.2 (by rw [hh1]; exact h),
          ite_flag_false]
        exact (ih todo' hlen' _ _ _ (by rw [hh1]; exact h)).trans hh1

end EnemyLoopDeath

section EnemyLoopDeathMore

theorem enemyLoop_ptrail_nonpos_aux (rng : ℕ → ℝ) :
    ∀ (n : ℕ) (todo : List Enemy), todo.length ≤ n →
    ∀ (done : List Enemy) (bullets : List Bullet) (st : CollideSt),
    st.player.health ≤ 0 →
    ((enemyLoop rng done todo bullets st).2.2).player.trail = st.player.trail := by
  intro n
  induction n with
  | zero =>
    intro todo hlen done bullets st h
    have htodo : todo = [] := List.length_eq_zero.mp (Nat.le_zero.mp hlen)
    subst htodo
    simp [enemyLoop]
  | succ n ih =>
    intro todo hlen done bullets st h
    cases todo with
    | nil => simp [enemyLoop]
    | cons e todo' =>
      have hlen' : todo'.length ≤ n := by
        simp only [List.length_cons] at hlen
        omega
      unfold enemyLoop
      dsimp only
      by_cases hd : e.ded = true
      · rw [if_pos hd]
        rw [playerCheck_nonpos rng e st h, ite_flag_false]
        exact ih todo' hlen' (done ++ [e]) bullets st h
      · rw [if_neg hd]
        have hh1 : ((bulletsPhase rng e bullets st).2.2).player.health
            = st.player.health := bulletsPhase_health_nonpos rng bullets e st h
        rw [playerCheck_nonpos rng (bulletsPhase rng e bullets st).2.1
          (bulletsPhase rng e bullets st).2.2 (by rw [hh1]; exact h),
          ite_flag_false]
        exact (ih todo' hlen' _ _ _ (by rw [hh1]; exact h)).trans
          (bulletsPhase_player_trail rng bullets e st)

theorem enemyLoop_disabled_aux (rng : ℕ → ℝ) :
    ∀ (n : ℕ) (todo : List Enemy), todo.length ≤ n →
    ∀ (done : List Enemy) (bullets : List Bullet) (st : CollideSt),
    st.player.health ≤ 0 →
    (∀ e ∈ done, e.trail.disabled = true) →
    (∀ e ∈ todo, e.trail.disabled = true) →
    ∀ e ∈ (enemyLoop rng done todo bullets st).1, e.trail.disabled = true := by
  intro n
  induction n with
  | zero =>
    intro todo hlen done bullets st h hdone htodo
    have h0 : todo = [] := List.length_eq_zero.mp (Nat.le_zero.mp hlen)
    subst h0
    simpa [enemyLoop] using hdone
  | succ n ih =>
    intro todo hlen done bullets st h hdone htodo
    cases todo with
    | nil => simpa [enemyLoop] using hdone
    | cons e todo' =>
      have hlen' : todo'.length ≤ n := by
        simp only [List.length_cons] at hlen
        omega
      have hedis : e.trail.disabled = true := htodo e (List.mem_cons_self e todo')
      have htodo' : ∀ x ∈ todo', x.trail.disabled = true :=
        fun x hx => htodo x (List.mem_cons_of_mem e hx)
      unfold enemyLoop
      dsimp only
      by_cases hd : e.ded = true
      · rw [if_pos hd]
        rw [playerCheck_nonpos rng e st h, ite_flag_false]
        refine ih todo' hlen' (done ++ [e]) bullets st h ?_ htodo'
        intro x hx
        rcases List.mem_append.mp hx with hx | hx
        · exact hdone x hx
        · rw [List.mem_singleton.mp hx]
          exact hedis
      · rw [if_neg hd]
        have hh1 : ((bulletsPhase rng e bullets st).2.2).player.health
            = st.player.health := bulletsPhase_health_nonpos rng bullets e st h
        rw [playerCheck_nonpos rng (bulletsPhase rng e bullets st).2.1
          (bulletsPhase rng e bullets st).2.2 (by rw [hh1]; exact h),
          ite_flag_false]
        refine ih todo' hlen' _ _ _ (by rw [hh1]; exact h) ?_ htodo'
        intro x hx
        rcases List.mem_append.mp hx with hx | hx
        · exact hdone x hx
        · rw [List.mem_singleton.mp hx]
          rw [bulletsPhase_enemy_trail rng bullets e st]
          exact hedis

theorem playerCheck_flag_true (rng : ℕ → ℝ) (e : Enemy) (st : CollideSt)
    (h : (playerCheck rng e st).2.2 = true) :
    ((playerCheck rng e st).2.1).player.health ≤ 0 ∧
    ((playerCheck rng e st).2.1).player.trail.disabled = true ∧
    ((playerCheck rng e st).1).trail.disabled = true := by
  unfold playerCheck at h ⊢
  dsimp only at h ⊢
  split_ifs at h ⊢ with h1 h2 h3
  exact ⟨h3, rfl, rfl⟩

theorem playerCheck_flag_false (rng : ℕ → ℝ) (e : Enemy) (st : CollideSt)
    (h : (playerCheck rng e st).2.2 = false) (hp : st.player.health > 0) :
    ((playerCheck rng e st).2.1).player.health > 0 := by
  unfold playerCheck at h ⊢
  dsimp only at h ⊢
  split_ifs at h ⊢ with h1 h2 h3
  · exact not_le.mp h3
  · exact hp
  · exact hp

end EnemyLoopDeathMore

section EnemyLoopCross

theorem flag_eq_false {b : Bool} (h : ¬b = true) : b = false := by
  cases b
  · rfl
  · exact absurd rfl h

theorem enemyLoop_cross_aux (rng : ℕ → ℝ) :
    ∀ (n : ℕ) (todo : List Enemy), todo.length ≤ n →
    ∀ (done : List Enemy) (bullets : List Bullet) (st : CollideSt),
    st.player.health > 0 →
    ((enemyLoop rng done todo bullets st).2.2).player.health ≤ 0 →
    ((enemyLoop rng done todo bullets st).2.2).player.trail.disabled = true ∧
    ∀ e ∈ (enemyLoop rng done todo bullets st).1, e.trail.disabled = true := by
  intro n
  induction n with
  | zero =>
    intro todo hlen done bullets st h hfinal
    have htodo : todo = [] := List.length_eq_zero.mp (Nat.le_zero.mp hlen)
    subst htodo
    simp only [enemyLoop] at hfinal
    linarith
  | succ n ih =>
    intro todo hlen done bullets st h hfinal
    cases todo with
    | nil =>
      simp only [enemyLoop] at hfinal
      linarith
    | cons e todo' =>
      have hlen' : todo'.length ≤ n := by
        simp only [List.length_cons] at hlen
        omega
      have hlenm : (todo'.map disableTrail).length ≤ n := by
        rw [List.length_map]
        exact hlen'
      unfold enemyLoop at hfinal ⊢
      dsimp only at hfinal ⊢
      by_cases hd : e.ded = true
      · rw [if_pos hd] at hfinal ⊢
        by_cases hf : (playerCheck rng e st).2.2 = true
        · rw [if_pos hf] at hfinal ⊢
          obtain ⟨hA, hB, hC⟩ := playerCheck_flag_true rng e st hf
          constructor
          · rw [enemyLoop_ptrail_nonpos_aux rng n (todo'.map disableTrail)
              hlenm _ _ _ hA]
            exact hB
          · refine enemyLoop_disabled_aux rng n (todo'.map disableTrail) hlenm
              _ _ _ hA ?_ ?_
            · intro x hx
              rcases List.mem_append.mp hx with hx | hx
              · obtain ⟨y, _, rfl⟩ := List.mem_map.mp hx
                rfl
              · rw [List.mem_singleton.mp hx]
                exact hC
            · intro x hx
              obtain ⟨y, _, rfl⟩ := List.mem_map.mp hx
              rfl
        · rw [if_neg hf] at hfinal ⊢
          have hp' := playerCheck_flag_false rng e st (flag_eq_false hf) h
          exact ih todo' hlen' _ _ _ hp' hfinal
      · rw [if_neg hd] at hfinal ⊢
        have hpos : ((bulletsPhase rng e bullets st).2.2).player.health > 0 :=
          bulletsPhase_health_pos rng bullets e st h
        by_cases hf : (playerCheck rng (bulletsPhase rng e bullets st).2.1
            (bulletsPhase rng e bullets st).2.2).2.2 = true
        · rw [if_pos hf] at hfinal ⊢
          obtain ⟨hA, hB, hC⟩ := playerCheck_flag_true rng
            (bulletsPhase rng e bullets st).2.1
            (bulletsPhase rng e bullets st).2.2 hf
          constructor
          · rw [enemyLoop_ptrail_nonpos_aux rng n (todo'.map disableTrail)
              hlenm _ _ _ hA]
            exact hB
          · refine enemyLoop_disabled_aux rng n (todo'.map disableTrail) hlenm
              _ _ _ hA ?_ ?_
            · intro x hx
              rcases List.mem_append.mp hx with hx | hx
              · obtain ⟨y, _, rfl⟩ := List.mem_map.mp hx
                rfl
              · rw [List.mem_singleton.mp hx]
                exact hC
            · intro x hx
              obtain ⟨y, _, rfl⟩ := List.mem_map.mp hx
              rfl
        · rw [if_neg hf] at hfinal ⊢
          have hp' := playerCheck_flag_false rng
            (bulletsPhase rng e bullets st).2.1
            (bulletsPhase rng e bullets st).2.2 (flag_eq_false hf) hpos
          exact ih todo' hlen' _ _ _ hp' hfinal

end EnemyLoopCross

section UpdateDeath

theorem collide_health_nonpos (rng : ℕ → ℝ) (s : GameState)
    (h : s.player.health ≤ 0) :
    (Game.collide rng s).player.health = s.player.health := by
  unfold Game.collide
  exact enemyLoop_health_nonpos_aux rng s.enemies.length s.enemies le_rfl []
    s.bullets ⟨s.player, s.score, s.particles, s.rngIndex⟩ h

theorem collide_cross (rng : ℕ → ℝ) (s : GameState) (h0 : s.player.health > 0)
    (h1 : (Game.collide rng s).player.health ≤ 0) :
    (Game.collide rng s).player.trail.disabled = true ∧
    ∀ e ∈ (Game.collide rng s).enemies, e.trail.disabled = true := by
  unfold Game.collide at h1 ⊢
  dsimp only at h1 ⊢
  exact enemyLoop_cross_aux rng s.enemies.length s.enemies le_rfl []
    s.bullets ⟨s.player, s.score, s.particles, s.rngIndex⟩ h0 h1

theorem stepUnpaused_health_nonpos (rng : ℕ → ℝ) (now dt : ℝ) (s : GameState)
    (h : s.player.health ≤ 0) :
    (stepUnpaused rng now dt s).player.health = s.player.health := by
  unfold stepUnpaused
  dsimp only
  split_ifs <;> exact (collide_health_nonpos rng _ (by exact h)).trans rfl

theorem update_health_nonpos (rng : ℕ → ℝ) (now dt : ℝ) (s : GameState)
    (h : s.player.health ≤ 0) :
    (Game.update rng now dt s).player.health ≤ 0 := by
  unfold Game.update
  dsimp only
  split_ifs with h1 h2
  all_goals
    first
      | exact h
      | exact absurd h h2
      | (rw [stepUnpaused_health_nonpos rng now (dt / 50) _ (by exact h)]
         exact h)

end UpdateDeath

/-- C8: once the player's health reaches 0 during the collision phase of an
update tick, the player's trail and every enemy's trail are disabled; every
subsequent unpaused `update(dt)` tick divides dt by 50 before any entity is
integrated (the whole tick body runs with dt/50); `render` emits the
game-over message carrying the score and the computed accuracy percentage
`ceil(100*accuracy/max(shootCount,1))`; and health stays at or below 0 under
further updates (heal is blocked at 0), so all of this persists until
restart. -/
theorem death_state_spec :
    (∀ (rng : ℕ → ℝ) (s : GameState), s.player.health > 0 →
      (Game.collide rng s).player.health ≤ 0 →
      (Game.collide rng s).player.trail.disabled = true ∧
      ∀ e ∈ (Game.collide rng s).enemies, e.trail.disabled = true) ∧
    (∀ (rng : ℕ → ℝ) (now dt : ℝ) (s : GameState), s.paused = false →
      s.player.health ≤ 0 →
      Game.update rng now dt s = stepUnpaused rng now (dt / 50)
        { s with renderer := { s.renderer with
            grayness := 1 - s.player.health / PLAYER_MAX_HEALTH } }) ∧
    (∀ s : GameState, s.paused = false → s.player.health ≤ 0 →
      Game.renderMessages s = [GameMsg.gameOver s.score
        (((⌈100 * s.player.accuracy / max s.player.shootCount 1⌉ : ℤ)) : ℝ)]) ∧
    (∀ (rng : ℕ → ℝ) (now dt : ℝ) (s : GameState), s.player.health ≤ 0 →
      (Game.update rng now dt s).player.health ≤ 0) := by
  refine ⟨collide_cross, ?_, ?_, update_health_nonpos⟩
  · intro rng now dt s hp hh
    unfold Game.update
    rw [hp]
    rw [if_neg (by simp)]
    dsimp only
    rw [if_pos hh]
  · intro s hp hh
    unfold Game.renderMessages
    rw [hp]
    rw [if_neg (by simp), if_pos hh]

theorem death_state_spec_witness :
    (crossState.player.health > 0 ∧
     (Game.collide rngZero crossState).player.health ≤ 0 ∧
     (Game.collide rngZero crossState).player.trail.disabled = true ∧
     ∀ e ∈ (Game.collide rngZero crossState).enemies, e.trail.disabled = true) ∧
    (deadState.paused = false ∧ deadState.player.health ≤ 0 ∧
     Game.update rngZero 0 1 deadState = stepUnpaused rngZero 0 (1 / 50)
       { deadState with renderer := { deadState.renderer with
           grayness := 1 - deadState.player.health / PLAYER_MAX_HEALTH } } ∧
     Game.renderMessages deadState = [GameMsg.gameOver deadState.score
       (((⌈100 * deadState.player.accuracy
            / max deadState.player.shootCount 1⌉ : ℤ)) : ℝ)] ∧
     (Game.update rngZero 0 1 deadState).player.health ≤ 0) := by
  have hcross0 : crossState.player.health > 0 := by
    norm_num [crossState, player20]
  have hcross : (Game.collide rngZero crossState).player.health ≤ 0 := by
    norm_num [Game.collide, enemyLoop, bulletsPhase, bulletCheck, playerCheck,
      particleBurst_rngZero, Player.heal, Player.damage, disableTrail,
      crossState, player20, newPlayerTrail, crossEnemy, newEnemyTrail,
      distEval_zero, BULLET_RADIUS, ENEMY_RADIUS, PLAYER_RADIUS, ENEMY_DAMAGE,
      ENEMY_KILL_HEAL, ENEMY_KILL_SCORE, PLAYER_MAX_HEALTH]
  have hdead : deadState.player.health ≤ 0 := by
    norm_num [deadState, deadPlayer]
  obtain ⟨hA, hB⟩ := death_state_spec.1 rngZero crossState hcross0 hcross
  exact ⟨⟨hcross0, hcross, hA, hB⟩,
         ⟨rfl, hdead,
          death_state_spec.2.1 rngZero 0 1 deadState rfl hdead,
          death_state_spec.2.2.1 deadState rfl hdead,
          death_state_spec.2.2.2 rngZero 0 1 deadState hdead⟩⟩
